import Mathlib

/-!
Verification of the google-search automation layer (`src/search.ts`,
`src/types.ts`, `src/mcp-server.ts`, `src/index.ts`) against its
natural-language specification.

The TypeScript source is shallowly embedded: the pure page-side extraction
script, the block-detection URL predicates, the fingerprint resolution and
the path derivations become Lean functions; the asynchronous control flow of
`performSearch` / `performSearchAndGetHtml` (browser selection, the three
challenge checkpoints, the headless-to-headed escalation recursion, the close
calls on the success / error / escalation paths) becomes an explicit,
branch-for-branch path model driven by a per-attempt configuration record
that decides each externally-observable outcome (was the navigation blocked,
was the search box found, ...).
-/

namespace GoogleSearchMcp

/-- JS `String.prototype.includes`: substring containment. -/
def jsIncludes (s pat : String) : Bool :=
  decide (pat.toList <:+: s.toList)

/-- JS `String.prototype.startsWith`. -/
def jsStartsWith (s pre : String) : Bool :=
  pre.toList.isPrefixOf s.toList

/-- Character-list core of JS `String.prototype.replace` with a plain string
pattern: only the first occurrence of `pat` is replaced by `rep`. -/
def replaceFirstAux (pat rep : List Char) : List Char → List Char
  | [] => if pat.isEmpty then rep else []
  | c :: rest =>
    if pat.isPrefixOf (c :: rest) then rep ++ (c :: rest).drop pat.length
    else c :: replaceFirstAux pat rep rest

/-- JS `s.replace(pat, rep)` for a plain-string `pat`: replaces the first
occurrence only. -/
def jsReplaceFirst (s pat rep : String) : String :=
  String.mk (replaceFirstAux pat.toList rep.toList s.toList)

/-- `search.ts` line 137 / line 1124: the fingerprint side-file path,
`stateFile.replace(".json", "-fingerprint.json")`. -/
def fingerprintFile (stateFile : String) : String :=
  jsReplaceFirst stateFile (".json") ("-fingerprint.json")

/-- The spec's reading of the side-file rule (spec section 6): replace a
*trailing* `.json` suffix of the state-file path by `-fingerprint.json`.
Stated for comparison with `fingerprintFile`, which embeds the source. -/
def specTrailingFingerprintFile (stateFile : String) : String :=
  if (".json".toList).isSuffixOf stateFile.toList then
    String.mk
        (stateFile.toList.take (stateFile.toList.length - ".json".toList.length))
      ++ "-fingerprint.json"
  else stateFile

/-! ## Block detection (`sorryPatterns` and the three checkpoint checks) -/

/-- `search.ts` lines 416-422: the fixed challenge-page URL substrings. -/
def sorryPatterns : List String :=
  ["google.com/sorry/index", "google.com/sorry", "recaptcha", "captcha",
   "unusual traffic"]

/-- Checkpoint 1, `search.ts` lines 424-428 (and 1392-1396): blocked when the
current URL or, when present, the `page.goto` response URL contains one of the
patterns. -/
def isBlockedNav (currentUrl : String) (responseUrl : Option String) : Bool :=
  sorryPatterns.any fun pattern =>
    jsIncludes currentUrl pattern ||
      (match responseUrl with
       | some u => jsIncludes u pattern
       | none => false)

/-- Checkpoint 2, `search.ts` lines 563-566 (and 1472-1475): only the current
page URL is examined. -/
def isBlockedAfterSearch (searchUrl : String) : Bool :=
  sorryPatterns.any fun pattern => jsIncludes searchUrl pattern

/-- Checkpoint 3, `search.ts` lines 686-689: only the current page URL is
examined. -/
def isBlockedDuringResults (currentUrl : String) : Bool :=
  sorryPatterns.any fun pattern => jsIncludes currentUrl pattern

/-! ## Fingerprint configuration (`FingerprintConfig`, `getDeviceConfig`,
and the saved-versus-host branch of `performSearch`) -/

inductive ColorScheme where
  | dark
  | light
deriving DecidableEq, Repr

inductive ReducedMotion where
  | reduce
  | noPreference
deriving DecidableEq, Repr

inductive ForcedColors where
  | active
  | none
deriving DecidableEq, Repr

/-- `search.ts` lines 15-22: the persisted fingerprint profile. -/
structure FingerprintConfig where
  deviceName : String
  locale : String
  timezoneId : String
  colorScheme : ColorScheme
  reducedMotion : ReducedMotion
  forcedColors : ForcedColors
deriving DecidableEq, Repr

/-- `search.ts` lines 167-172: the desktop device list used for the random
fallback choice. -/
def deviceList : List String :=
  ["Desktop Chrome", "Desktop Edge", "Desktop Firefox", "Desktop Safari"]

/-- `search.ts` lines 192-208, `getDeviceConfig`: the saved device name is
used when it is truthy (non-empty) and present in the playwright `devices`
registry (abstracted as the predicate `registry`); otherwise a random device
from `deviceList` (abstracted as `randomDevice`) is chosen. -/
def getDeviceConfigName (registry : String → Bool) (randomDevice : String)
    (saved : Option FingerprintConfig) : String :=
  match saved with
  | some fp =>
    if fp.deviceName ≠ "" ∧ registry fp.deviceName = true then fp.deviceName
    else randomDevice
  | none => randomDevice

/-- `search.ts` lines 267-320: the fingerprint profile effectively applied to
the browser context.  With a saved fingerprint, its five non-device fields are
spread into the context options and the device comes from `getDeviceConfig`;
without one, the whole profile is `getHostMachineConfig`'s result (passed here
as `host`, since that function reads ambient time, locale and OS), which is
also stored back into `savedState.fingerprint`. -/
def resolveFingerprint (registry : String → Bool) (randomDevice : String)
    (host : FingerprintConfig) (saved : Option FingerprintConfig) :
    FingerprintConfig :=
  match saved with
  | some fp =>
    { deviceName := getDeviceConfigName registry randomDevice (some fp)
      locale := fp.locale
      timezoneId := fp.timezoneId
      colorScheme := fp.colorScheme
      reducedMotion := fp.reducedMotion
      forcedColors := fp.forcedColors }
  | none => host

/-! ## Result extraction (the `page.evaluate` script, `search.ts` lines
814-973)

The DOM is abstracted at element level: for each CSS query performed by the
script, the page / container model records what the query would return
(element presence as `Option`, text content as `String`).  All filtering,
deduplication, limit and truncation logic is the script's own, translated
statement by statement. -/

/-- `types.ts` lines 4-8. -/
structure SearchResult where
  title : String
  link : String
  snippet : String
deriving DecidableEq, Repr

/-- `types.ts` lines 13-16. -/
structure SearchResponse where
  query : String
  results : List SearchResult
deriving DecidableEq, Repr

/-- A `div` inside a result container, as inspected by the generic snippet
fallback: whether `el.querySelector("h3")` matches, and `el.textContent`. -/
structure DivNode where
  hasH3 : Bool
  text : String
deriving DecidableEq, Repr

/-- One result container matched by a strategy's container selector.
`titleText` is `some` of `titleElement.textContent` when the title selector
matches; `linkInTitle` is the `href` of `titleElement.querySelector("a")`
when present; `ancestorAnchor` is the `href` of the nearest ancestor element
that is an HTML anchor (the upward `parentElement` walk), when one exists;
`containerAnchor` is the `href` of `container.querySelector("a")` when
present; `snippetEls` maps a snippet CSS selector to the text content of the
first matching element (`List.lookup` models `querySelector` returning the
first match, `none` when no element matches); `divs` lists the containers'
`div` descendants in document order. -/
structure Container where
  titleText : Option String
  linkInTitle : Option String
  ancestorAnchor : Option String
  containerAnchor : Option String
  snippetEls : List (String × String)
  divs : List DivNode
deriving DecidableEq, Repr

/-- One element returned by `document.querySelectorAll("a[href^='http']")`:
`isHtmlAnchor` models the `instanceof HTMLAnchorElement` guard, `parentTexts`
the text contents of the successive ancestors walked by the snippet search. -/
structure Anchor where
  isHtmlAnchor : Bool
  href : String
  text : String
  parentTexts : List String
deriving DecidableEq, Repr

/-- The result page as seen by the extraction script: the containers each
container selector matches (in document order), and the generic anchor list. -/
structure PageModel where
  containersBySelector : List (String × List Container)
  anchors : List Anchor
deriving DecidableEq, Repr

/-- `search.ts` lines 820-841: the prioritized strategy tuples. -/
structure SelectorSet where
  container : String
  title : String
  snippet : String
deriving DecidableEq, Repr

def selectorSets : List SelectorSet :=
  [{ container := "#search div[data-hveid]", title := "h3",
     snippet := ".VwiC3b" },
   { container := "#rso div[data-hveid]", title := "h3",
     snippet := "[data-sncf=\"1\"]" },
   { container := ".g", title := "h3",
     snippet := "div[style*=\"webkit-line-clamp\"]" },
   { container := "div[jscontroller][data-hveid]", title := "h3",
     snippet := "div[role=\"text\"]" }]

/-- `search.ts` lines 844-849. -/
def alternativeSnippetSelectors : List String :=
  [".VwiC3b", "[data-sncf=\"1\"]", "div[style*=\"webkit-line-clamp\"]",
   "div[role=\"text\"]"]

/-- `document.querySelectorAll(sel)` on the page model. -/
def queryContainers (p : PageModel) (sel : String) : List Container :=
  (p.containersBySelector.lookup sel).getD []

/-- The extraction script's mutable state: the `results` array and the
`seenUrls` set (a list suffices since an URL is only added after a negative
membership test). -/
structure ExtractState where
  results : List SearchResult
  seen : List String
deriving DecidableEq, Repr

/-- `search.ts` lines 866-883: title-anchor href, else nearest ancestor
anchor href, else any container anchor href, else the empty string. -/
def resolveLink (c : Container) : String :=
  match c.linkInTitle with
  | some h => h
  | none =>
    match c.ancestorAnchor with
    | some h => h
    | none =>
      match c.containerAnchor with
      | some h => h
      | none => ""

/-- `search.ts` lines 890-917: strategy snippet selector, else the
alternative selectors in order, else the first `div` without a nested `h3`
whose trimmed text is longer than 20 characters. -/
def resolveSnippet (ss : SelectorSet) (c : Container) : String :=
  match c.snippetEls.lookup ss.snippet with
  | some t => t.trim
  | none =>
    let alt := alternativeSnippetSelectors.findSome? fun sel =>
      c.snippetEls.lookup sel
    match alt with
    | some t => t.trim
    | none =>
      let textNodes := c.divs.filter fun d =>
        !d.hasH3 && d.text.trim.length > 20
      match textNodes with
      | [] => ""
      | d :: _ => d.text.trim

/-- `search.ts` lines 857-924, the body of the per-container loop (the
limit check at the loop head lives in `processContainers`). -/
def processContainer (ss : SelectorSet) (st : ExtractState)
    (c : Container) : ExtractState :=
  match c.titleText with
  | none => st
  | some rawTitle =>
    let title := rawTitle.trim
    let link := resolveLink c
    if link = "" ∨ jsStartsWith link "http" = false ∨ st.seen.contains link then
      st
    else
      let snippet := resolveSnippet ss c
      if title ≠ "" ∧ link ≠ "" then
        let r : SearchResult := { title := title, link := link, snippet := snippet }
        { results := st.results ++ [r], seen := st.seen ++ [link] }
      else st

/-- The container loop with its `results.length >= maxResults` break. -/
def processContainers (maxResults : Nat) (ss : SelectorSet) :
    ExtractState → List Container → ExtractState
  | st, [] => st
  | st, c :: rest =>
    if st.results.length ≥ maxResults then st
    else processContainers maxResults ss (processContainer ss st c) rest

/-- The strategy-set loop (`search.ts` lines 852-925) with its break. -/
def processSets (maxResults : Nat) (p : PageModel) :
    ExtractState → List SelectorSet → ExtractState
  | st, [] => st
  | st, ss :: rest =>
    if st.results.length ≥ maxResults then st
    else
      processSets maxResults p
        (processContainers maxResults ss st (queryContainers p ss.container))
        rest

/-- `search.ts` lines 956-965: first among the first three ancestors whose
trimmed text is longer than 20 characters and differs from the title. -/
def anchorSnippet (title : String) : Nat → List String → String
  | 0, _ => ""
  | _, [] => ""
  | fuel + 1, t :: rest =>
    let text := t.trim
    if text.length > 20 ∧ text ≠ title then text
    else anchorSnippet title fuel rest

/-- `search.ts` lines 932-969, the body of the supplementary anchor loop. -/
def processAnchor (st : ExtractState) (a : Anchor) : ExtractState :=
  if a.isHtmlAnchor = false then st
  else
    let link := a.href
    if link = "" ∨ st.seen.contains link ∨
        jsIncludes link "google.com/" = true ∨
        jsIncludes link "accounts.google" = true ∨
        jsIncludes link "support.google" = true then
      st
    else
      let title := a.text.trim
      if title = "" then st
      else
        let r : SearchResult :=
          { title := title, link := link,
            snippet := anchorSnippet title 3 a.parentTexts }
        { results := st.results ++ [r], seen := st.seen ++ [link] }

/-- The supplementary anchor loop with its break. -/
def processAnchors (maxResults : Nat) :
    ExtractState → List Anchor → ExtractState
  | st, [] => st
  | st, a :: rest =>
    if st.results.length ≥ maxResults then st
    else processAnchors maxResults (processAnchor st a) rest

/-- The extraction state after the strategy cascade and, when the limit is
under-filled, the supplementary generic anchor pass (`search.ts` lines
852-970). -/
def extractFinalState (p : PageModel) (maxResults : Nat) : ExtractState :=
  let st := processSets maxResults p { results := [], seen := [] } selectorSets
  if st.results.length < maxResults then processAnchors maxResults st p.anchors
  else st

/-- The whole `page.evaluate` extraction script (`search.ts` lines 814-973):
strategy cascade, supplementary generic pass when under-filled, final
`slice(0, maxResults)`. -/
def extractResults (p : PageModel) (maxResults : Nat) : List SearchResult :=
  (extractFinalState p maxResults).results.take maxResults

/-! ## The `performSearch` path model (`search.ts` lines 216-1088)

One invocation of `performSearch(headless)` is modelled branch for branch.
An `AttemptCfg` record fixes every externally-decided event of the attempt
(URLs observed at the checkpoints, which waits time out, whether elements are
found, the page content).  The model records the close calls the attempt
performs, with browser identity, so the ownership discipline is visible. -/

/-- Identity of a browser instance: the caller-supplied shared instance, the
instance `performSearch` launched for attempt `i`, or the throwaway headed
instance launched during attempt `i`'s shared-browser escalation. -/
inductive BrowserId where
  | shared
  | owned (i : Nat)
  | throwaway (i : Nat)
deriving DecidableEq, Repr

/-- A close call executed by the controller: the page or context of attempt
`i`, or a browser instance. -/
inductive CloseEv where
  | page (i : Nat)
  | ctx (i : Nat)
  | browser (b : BrowserId)
deriving DecidableEq, Repr

/-- How one `performSearch(headless)` invocation ends: it re-invokes itself
with `headless = false` (`escalate`), its `catch` block is reached with an
error (`failure`), or it returns extracted results (`success`). -/
inductive AttemptOut where
  | escalate
  | failure (msg : String)
  | success (results : List SearchResult)
deriving DecidableEq, Repr

/-- The externally-decided events of one attempt. -/
structure AttemptCfg where
  /-- `page.goto` throws (caught by the attempt's `catch`). -/
  navFails : Bool
  /-- URL of the `page.goto` response, `none` when the response is `null`. -/
  responseUrl : Option String
  /-- `page.url()` right after navigation. -/
  currentUrlAfterNav : String
  /-- the headed `waitForNavigation` at checkpoint 1 times out (throws). -/
  navVerifyTimeout : Bool
  /-- in the shared-browser escalation, creating the throwaway context/page
  throws (`search.ts` lines 493-496): the throwaway browser is closed and the
  error is rethrown into the attempt's `catch`. -/
  throwawayFails : Bool
  /-- some search-input selector matched (`search.ts` lines 533-545). -/
  inputFound : Bool
  /-- `page.url()` after submitting the query. -/
  urlAfterSearch : String
  /-- the headed `waitForNavigation` at checkpoint 2 times out. -/
  searchVerifyTimeout : Bool
  /-- some results-container selector appeared (`search.ts` lines 672-682). -/
  resultsFound : Bool
  /-- `page.url()` while waiting for results. -/
  urlDuringResults : String
  /-- the headed `waitForNavigation` at checkpoint 3 times out. -/
  resultsVerifyTimeout : Bool
  /-- after checkpoint-3 verification, the second results wait succeeds
  (`search.ts` lines 779-797). -/
  retryResultsFound : Bool
  /-- the DOM handed to the extraction script. -/
  page : PageModel
deriving Repr

/-- The browser used by attempt `i`: `search.ts` lines 217-265 — the
caller-supplied instance when present, else a fresh launch. -/
def browserOf (shared : Bool) (i : Nat) : BrowserId :=
  if shared then BrowserId.shared else BrowserId.owned i

/-- Events and outcome of one attempt. -/
structure AttemptTrace where
  events : List CloseEv
  out : AttemptOut
deriving DecidableEq, Repr

/-- The escalation block repeated at the three checkpoints (`search.ts`
lines 430-501, 568-639, 691-762): close page and context; with a shared
browser, launch and close a throwaway headed browser and re-invoke (the inner
catch closes the throwaway and rethrows); with an owned browser, close it and
re-invoke. -/
def escalateTrace (shared throwawayFails : Bool) (i : Nat) : AttemptTrace :=
  if shared then
    if throwawayFails then
      { events := [CloseEv.page i, CloseEv.ctx i,
                   CloseEv.browser (BrowserId.throwaway i)],
        out := AttemptOut.failure "escalation setup failed" }
    else
      { events := [CloseEv.page i, CloseEv.ctx i,
                   CloseEv.browser (BrowserId.throwaway i)],
        out := AttemptOut.escalate }
  else
    { events := [CloseEv.page i, CloseEv.ctx i,
                 CloseEv.browser (browserOf shared i)],
      out := AttemptOut.escalate }

/-- The close calls of the attempt's `catch` block (`search.ts` lines
1061-1067): the attempt browser is closed only when it was not provided by
the caller. -/
def catchEvents (shared : Bool) (i : Nat) : List CloseEv :=
  if shared then [] else [CloseEv.browser (browserOf shared i)]

/-- The close calls of the attempt's success path (`search.ts` lines
1016-1022): identical guard. -/
def successEvents (shared : Bool) (i : Nat) : List CloseEv :=
  if shared then [] else [CloseEv.browser (browserOf shared i)]

/-- Stage 3 of an attempt: the results wait, checkpoint 3 and extraction
(`search.ts` lines 661-973 and the surrounding success/catch paths). -/
def runFromResults (shared headless : Bool) (c : AttemptCfg)
    (i maxResults : Nat) : AttemptTrace :=
  if c.resultsFound then
    { events := successEvents shared i,
      out := AttemptOut.success (extractResults c.page maxResults) }
  else if isBlockedDuringResults c.urlDuringResults then
    if headless then escalateTrace shared c.throwawayFails i
    else if c.resultsVerifyTimeout then
      { events := catchEvents shared i, out := AttemptOut.failure "Timeout" }
    else if c.retryResultsFound then
      { events := successEvents shared i,
        out := AttemptOut.success (extractResults c.page maxResults) }
    else
      { events := catchEvents shared i,
        out := AttemptOut.failure "Could not find search results element" }
  else
    { events := catchEvents shared i,
      out := AttemptOut.failure "Could not find search results element" }

/-- Stage 2 of an attempt: search-box lookup, query submission and
checkpoint 2 (`search.ts` lines 520-659). -/
def runFromInput (shared headless : Bool) (c : AttemptCfg)
    (i maxResults : Nat) : AttemptTrace :=
  if c.inputFound = false then
    { events := catchEvents shared i,
      out := AttemptOut.failure "Could not find search box" }
  else if isBlockedAfterSearch c.urlAfterSearch then
    if headless then escalateTrace shared c.throwawayFails i
    else if c.searchVerifyTimeout then
      { events := catchEvents shared i, out := AttemptOut.failure "Timeout" }
    else runFromResults shared headless c i maxResults
  else runFromResults shared headless c i maxResults

/-- One `performSearch(headless)` invocation: navigation and checkpoint 1
(`search.ts` lines 389-518), then the later stages. -/
def runAttempt (shared headless : Bool) (c : AttemptCfg)
    (i maxResults : Nat) : AttemptTrace :=
  if c.navFails then
    { events := catchEvents shared i, out := AttemptOut.failure "goto failed" }
  else if isBlockedNav c.currentUrlAfterNav c.responseUrl then
    if headless then escalateTrace shared c.throwawayFails i
    else if c.navVerifyTimeout then
      { events := catchEvents shared i, out := AttemptOut.failure "Timeout" }
    else runFromInput shared headless c i maxResults
  else runFromInput shared headless c i maxResults

/-- `search.ts` lines 1071-1082: the synthetic result built by the `catch`
block of `performSearch`. -/
def syntheticErrorResult (msg : String) : SearchResult :=
  { title := "Search failed", link := "",
    snippet := "Could not complete the search, error message: " ++ msg }

/-- Turn an attempt outcome into `performSearch`'s returned response,
remembering the caught error message when there was one.  A headed attempt
never escalates (theorem `runAttempt_headed_no_escalate`); the `escalate`
case below is dead code kept only for totality. -/
def finalize (query : String) (out : AttemptOut) :
    Option String × SearchResponse :=
  match out with
  | AttemptOut.success rs => (none, { query := query, results := rs })
  | AttemptOut.failure msg =>
    (some msg, { query := query, results := [syntheticErrorResult msg] })
  | AttemptOut.escalate =>
    (some "unreachable", { query := query, results := [] })

/-- One attempt as seen from outside: the `headless` argument it received
and the browser it ran on. -/
structure AttemptRecord where
  headless : Bool
  browser : BrowserId
deriving DecidableEq, Repr

/-- A whole `googleSearch` execution below the option handling. -/
structure SearchRun where
  events : List CloseEv
  attempts : List AttemptRecord
  failed : Option String
  response : SearchResponse
deriving Repr

/-- The full escalation recursion of `performSearch` (`search.ts` line 1088
entry, recursive `performSearch(false)` re-entries at the checkpoints): the
first attempt runs with `useHeadless`; an escalation re-invokes with
`headless = false`, and — because `existingBrowser` is captured from the
enclosing `googleSearch` scope and re-tested at line 220 — the second attempt
again uses the shared browser whenever one was supplied.  A second escalation
cannot occur (`headless` is `false` then), so two attempts suffice. -/
def runSearchTop (query : String) (maxResults : Nat) (shared useHeadless : Bool)
    (c₁ c₂ : AttemptCfg) : SearchRun :=
  let t₁ := runAttempt shared useHeadless c₁ 0 maxResults
  match t₁.out with
  | AttemptOut.escalate =>
    let t₂ := runAttempt shared false c₂ 1 maxResults
    let fr := finalize query t₂.out
    { events := t₁.events ++ t₂.events,
      attempts := [{ headless := useHeadless, browser := browserOf shared 0 },
                   { headless := false, browser := browserOf shared 1 }],
      failed := fr.1, response := fr.2 }
  | out =>
    let fr := finalize query out
    { events := t₁.events,
      attempts := [{ headless := useHeadless, browser := browserOf shared 0 }],
      failed := fr.1, response := fr.2 }

/-- `types.ts` lines 21-28. -/
structure CommandOptions where
  limit : Option Nat := none
  timeout : Option Nat := none
  headless : Option Bool := none
  stateFile : Option String := none
  noSaveState : Option Bool := none
  locale : Option String := none
deriving DecidableEq, Repr

/-- `search.ts` lines 117-128: the destructuring default `headless = true`
followed by `let useHeadless = headless;` — the headless flag the first
attempt actually receives. -/
def googleSearchInitialHeadless (options : CommandOptions) : Bool :=
  options.headless.getD true

/-- `googleSearch` below the state loading: line 1088 starts `performSearch`
with `useHeadless`. -/
def googleSearchRun (query : String) (options : CommandOptions)
    (shared : Bool) (c₁ c₂ : AttemptCfg) : SearchRun :=
  runSearchTop query (options.limit.getD 10) shared
    (googleSearchInitialHeadless options) c₁ c₂

/-! ## The `performSearchAndGetHtml` path model (`search.ts` lines
1099-1700)

Same shape as the search path, but: no caller-supplied browser exists, an
escalation closes page, context and browser and re-invokes headed, there is
no results-wait checkpoint, and the `catch` block closes the browser and
rethrows a wrapped error instead of returning a synthetic result. -/

/-- `types.ts` lines 33-40. -/
structure HtmlResponse where
  query : String
  html : String
  url : String
  savedPath : Option String
  screenshotPath : Option String
  originalHtmlLength : Nat
deriving DecidableEq, Repr

/-- `search.ts` line 1590: `outputPath.replace(/\.html$/, ".png")` — the
regex is anchored, so only a trailing `.html` is substituted. -/
def screenshotPathOf (p : String) : String :=
  if p.endsWith (".html") then p.dropRight (".html".length) ++ ".png" else p

/-- Externally-decided events of one HTML-capture attempt. -/
structure HtmlAttemptCfg where
  navFails : Bool
  responseUrl : Option String
  currentUrlAfterNav : String
  navVerifyTimeout : Bool
  inputFound : Bool
  urlAfterSearch : String
  searchVerifyTimeout : Bool
  /-- `page.url()` on the results page (`search.ts` line 1512). -/
  finalUrl : String
  /-- `page.content()` (`search.ts` line 1526). -/
  originalHtml : String
  /-- the content after the style/link/script regex stripping (`search.ts`
  lines 1530-1540); the stripping itself is outside the modelled claims. -/
  cleanedHtml : String
deriving DecidableEq, Repr

inductive HtmlOut where
  | escalate
  | failure (msg : String)
  | success (resp : HtmlResponse)
deriving DecidableEq, Repr

/-- The success return value (`search.ts` lines 1550-1654): when file saving
is requested the output path defaults to the timestamped `defaultPath`
computed at lines 1556-1571 (ambient time, passed as a parameter), and the
screenshot path substitutes the `.html` extension. -/
def htmlSuccess (query : String) (saveToFile : Bool) (outputPath : Option String)
    (defaultPath : String) (c : HtmlAttemptCfg) : HtmlOut :=
  let path := outputPath.getD defaultPath
  HtmlOut.success
    { query := query, html := c.cleanedHtml, url := c.finalUrl,
      savedPath := if saveToFile then some path else none,
      screenshotPath := if saveToFile then some (screenshotPathOf path) else none,
      originalHtmlLength := c.originalHtml.length }

/-- Stage 2 of an HTML attempt: search box, submission, checkpoint 2
(`search.ts` lines 1429-1509). -/
def runHtmlFromInput (query : String) (headless saveToFile : Bool)
    (outputPath : Option String) (defaultPath : String)
    (c : HtmlAttemptCfg) : HtmlOut :=
  if c.inputFound = false then HtmlOut.failure "Could not find search box"
  else if isBlockedAfterSearch c.urlAfterSearch then
    if headless then HtmlOut.escalate
    else if c.searchVerifyTimeout then HtmlOut.failure "Timeout"
    else htmlSuccess query saveToFile outputPath defaultPath c
  else htmlSuccess query saveToFile outputPath defaultPath c

/-- One `performSearchAndGetHtml(headless)` invocation (`search.ts` lines
1194-1696). -/
def runHtmlAttempt (query : String) (headless saveToFile : Bool)
    (outputPath : Option String) (defaultPath : String)
    (c : HtmlAttemptCfg) : HtmlOut :=
  if c.navFails then HtmlOut.failure "goto failed"
  else if isBlockedNav c.currentUrlAfterNav c.responseUrl then
    if headless then HtmlOut.escalate
    else if c.navVerifyTimeout then HtmlOut.failure "Timeout"
    else runHtmlFromInput query headless saveToFile outputPath defaultPath c
  else runHtmlFromInput query headless saveToFile outputPath defaultPath c

/-- A whole `getGoogleSearchPageHtml` execution below the option handling. -/
structure HtmlRun where
  failed : Option String
  result : Except String HtmlResponse
deriving Repr

/-- `search.ts` lines 1691-1695: the `catch` block wraps the message and
rethrows. -/
def htmlErrorWrap (msg : String) : String :=
  "Failed to get Google search page HTML: " ++ msg

/-- The HTML escalation recursion (`search.ts` line 1699 entry, re-entries
at lines 1410 and 1489): first attempt always headless (line 1114 hardcodes
`useHeadless = true`), an escalation re-invokes headed, a headed attempt
never escalates (theorem `runHtmlAttempt_headed_no_escalate`; the inner
`escalate` case below is dead code kept for totality). -/
def runHtmlTop (query : String) (saveToFile : Bool) (outputPath : Option String)
    (defaultPath : String) (c₁ c₂ : HtmlAttemptCfg) : HtmlRun :=
  match runHtmlAttempt query true saveToFile outputPath defaultPath c₁ with
  | HtmlOut.escalate =>
    match runHtmlAttempt query false saveToFile outputPath defaultPath c₂ with
    | HtmlOut.escalate =>
      { failed := some "unreachable", result := Except.error "unreachable" }
    | HtmlOut.failure msg =>
      { failed := some msg, result := Except.error (htmlErrorWrap msg) }
    | HtmlOut.success r => { failed := none, result := Except.ok r }
  | HtmlOut.failure msg =>
    { failed := some msg, result := Except.error (htmlErrorWrap msg) }
  | HtmlOut.success r => { failed := none, result := Except.ok r }

/-! ## Helper lemmas -/

theorem contains_false_not_mem {l : List String} {a : String}
    (h : l.contains a = false) : a ∉ l := by
  intro hm
  rw [List.contains, List.elem_eq_mem, decide_eq_false_iff_not] at h
  exact h hm

/-- A strategy-pass container step either leaves the state unchanged or pushes
one result whose link was unseen and starts with `http`, recording the link as
seen. -/
theorem processContainer_cases (ss : SelectorSet) (st : ExtractState)
    (c : Container) :
    processContainer ss st c = st ∨
      ∃ r : SearchResult, st.seen.contains r.link = false ∧
        jsStartsWith r.link "http" = true ∧
        processContainer ss st c =
          { results := st.results ++ [r], seen := st.seen ++ [r.link] } := by
  unfold processContainer
  cases hT : c.titleText with
  | none => exact Or.inl rfl
  | some rawTitle =>
    dsimp only
    split_ifs with h1 h2
    · exact Or.inl rfl
    · right
      push_neg at h1
      refine ⟨{ title := rawTitle.trim, link := resolveLink c,
                snippet := resolveSnippet ss c }, ?_, ?_, rfl⟩
      · simpa using h1.2.2
      · simpa using h1.2.1
    · exact Or.inl rfl

/-- A supplementary-pass anchor step either leaves the state unchanged or
pushes one result whose link is the anchor's href and was unseen. -/
theorem processAnchor_cases (st : ExtractState) (a : Anchor) :
    processAnchor st a = st ∨
      (st.seen.contains a.href = false ∧
        processAnchor st a =
          { results := st.results ++
              [{ title := a.text.trim, link := a.href,
                 snippet := anchorSnippet a.text.trim 3 a.parentTexts }],
            seen := st.seen ++ [a.href] }) := by
  unfold processAnchor
  dsimp only
  split_ifs with h0 h1 h2
  · exact Or.inl rfl
  · exact Or.inl rfl
  · exact Or.inl rfl
  · right
    push_neg at h1
    exact ⟨by simpa using h1.2.1, rfl⟩

def linksOf (rs : List SearchResult) : List String :=
  rs.map fun r => r.link

/-- Invariant of the extraction state: the seen set mirrors the collected
links, and the links are pairwise distinct. -/
def SeenInv (st : ExtractState) : Prop :=
  st.seen = linksOf st.results ∧ st.seen.Nodup

theorem seenInv_push {st : ExtractState} {r : SearchResult}
    (h : SeenInv st) (hc : st.seen.contains r.link = false) :
    SeenInv { results := st.results ++ [r], seen := st.seen ++ [r.link] } := by
  obtain ⟨hs, hn⟩ := h
  have hm : r.link ∉ st.seen := contains_false_not_mem hc
  constructor
  · simp [linksOf, hs]
  · simp only [List.nodup_append, List.nodup_singleton, true_and]
    refine ⟨hn, ?_⟩
    intro x hx hxm
    rw [List.mem_singleton] at hxm
    exact hm (hxm ▸ hx)

theorem seenInv_processContainer (ss : SelectorSet) (st : ExtractState)
    (c : Container) (h : SeenInv st) : SeenInv (processContainer ss st c) := by
  rcases processContainer_cases ss st c with heq | ⟨r, hc, _, heq⟩
  · rw [heq]; exact h
  · rw [heq]; exact seenInv_push h hc

theorem seenInv_processContainers (m : Nat) (ss : SelectorSet) :
    ∀ (cs : List Container) (st : ExtractState), SeenInv st →
      SeenInv (processContainers m ss st cs) := by
  intro cs
  induction cs with
  | nil => intro st h; exact h
  | cons c rest ih =>
    intro st h
    show SeenInv (if st.results.length ≥ m then st
      else processContainers m ss (processContainer ss st c) rest)
    split
    · exact h
    · exact ih _ (seenInv_processContainer ss st c h)

theorem seenInv_processSets (m : Nat) (p : PageModel) :
    ∀ (sets : List SelectorSet) (st : ExtractState), SeenInv st →
      SeenInv (processSets m p st sets) := by
  intro sets
  induction sets with
  | nil => intro st h; exact h
  | cons ss rest ih =>
    intro st h
    show SeenInv (if st.results.length ≥ m then st
      else processSets m p
        (processContainers m ss st (queryContainers p ss.container)) rest)
    split
    · exact h
    · exact ih _ (seenInv_processContainers m ss _ st h)

theorem seenInv_processAnchor (st : ExtractState) (a : Anchor)
    (h : SeenInv st) : SeenInv (processAnchor st a) := by
  rcases processAnchor_cases st a with heq | ⟨hc, heq⟩
  · rw [heq]; exact h
  · rw [heq]; exact seenInv_push h hc

theorem seenInv_processAnchors (m : Nat) :
    ∀ (as : List Anchor) (st : ExtractState), SeenInv st →
      SeenInv (processAnchors m st as) := by
  intro as
  induction as with
  | nil => intro st h; exact h
  | cons a rest ih =>
    intro st h
    show SeenInv (if st.results.length ≥ m then st
      else processAnchors m (processAnchor st a) rest)
    split
    · exact h
    · exact ih _ (seenInv_processAnchor st a h)

theorem seenInv_extractFinalState (p : PageModel) (m : Nat) :
    SeenInv (extractFinalState p m) := by
  have h0 : SeenInv { results := [], seen := [] } := ⟨rfl, List.nodup_nil⟩
  show SeenInv (if (processSets m p { results := [], seen := [] }
      selectorSets).results.length < m then
    processAnchors m (processSets m p { results := [], seen := [] }
      selectorSets) p.anchors
    else processSets m p { results := [], seen := [] } selectorSets)
  split
  · exact seenInv_processAnchors m _ _ (seenInv_processSets m p selectorSets _ h0)
  · exact seenInv_processSets m p selectorSets _ h0

/-! ## C1 -/

/-- C1: for every page model and every requested limit, the extraction script
returns at most `maxResults` results, and their `link` values are pairwise
distinct (the `seenUrls` deduplication spans both the selector-strategy
cascade and the supplementary generic anchor pass). -/
theorem C1_extractor_limit_and_dedup (p : PageModel) (maxResults : Nat) :
    (extractResults p maxResults).length ≤ maxResults ∧
      ((extractResults p maxResults).map (fun r => r.link)).Nodup := by
  obtain ⟨hs, hn⟩ := seenInv_extractFinalState p maxResults
  constructor
  · rw [extractResults, List.length_take]
    exact Nat.min_le_left _ _
  · have hfull : (linksOf (extractFinalState p maxResults).results).Nodup :=
      hs ▸ hn
    have hsub : List.Sublist
        ((extractResults p maxResults).map (fun r => r.link))
        (linksOf (extractFinalState p maxResults).results) :=
      (List.take_sublist _ _).map _
    exact List.Nodup.sublist hsub hfull

/-! ## Concrete fixtures shared by several witnesses and counterexamples -/

/-- A concrete device registry: exactly the four desktop presets. -/
def demoRegistry : String → Bool := fun s => deviceList.contains s

def demoHost : FingerprintConfig :=
  { deviceName := "Desktop Firefox", locale := "en-US",
    timezoneId := "America/New_York", colorScheme := ColorScheme.light,
    reducedMotion := ReducedMotion.noPreference,
    forcedColors := ForcedColors.none }

def demoSaved : FingerprintConfig :=
  { deviceName := "Desktop Safari", locale := "fr-FR",
    timezoneId := "Europe/Paris", colorScheme := ColorScheme.dark,
    reducedMotion := ReducedMotion.reduce,
    forcedColors := ForcedColors.active }

def demoUnknownSaved : FingerprintConfig :=
  { demoSaved with deviceName := "Galaxy Tab S4" }

/-! ## C5 -/

/-- C5: a persisted fingerprint whose device name is non-empty and present in
the device registry is returned unchanged by the fingerprint resolution — all
six fields are reused as persisted. -/
theorem C5_recognized_persisted_profile_unchanged
    (registry : String → Bool) (randomDevice : String)
    (host fp : FingerprintConfig)
    (hname : fp.deviceName ≠ "") (hreg : registry fp.deviceName = true) :
    resolveFingerprint registry randomDevice host (some fp) = fp := by
  unfold resolveFingerprint getDeviceConfigName
  dsimp only
  rw [if_pos ⟨hname, hreg⟩]

theorem C5_witness :
    demoSaved.deviceName ≠ "" ∧ demoRegistry demoSaved.deviceName = true ∧
      resolveFingerprint demoRegistry ("Desktop Chrome") demoHost
        (some demoSaved) = demoSaved :=
  ⟨by decide, by decide,
    C5_recognized_persisted_profile_unchanged demoRegistry ("Desktop Chrome")
      demoHost demoSaved (by decide) (by decide)⟩

/-! ## C6 -/

/-- C6 counterexample: a persisted profile with an unrecognized device name is
*not* treated as absent — resolution with it differs from resolution without
it (which would regenerate from host signals). -/
theorem C6_unrecognized_not_treated_as_absent_cex :
    resolveFingerprint demoRegistry ("Desktop Chrome") demoHost
        (some demoUnknownSaved) ≠
      resolveFingerprint demoRegistry ("Desktop Chrome") demoHost none := by
  decide

/-- C6 as amended: with an unrecognized (or empty) persisted device name, the
resolved profile keeps the persisted locale, timezoneId, colorScheme,
reducedMotion and forcedColors, and only the device falls back to the random
choice from the fixed desktop list; nothing is regenerated from host signals
and no error is raised. -/
theorem C6_unrecognized_keeps_persisted_fields
    (registry : String → Bool) (randomDevice : String)
    (host fp : FingerprintConfig)
    (h : fp.deviceName = "" ∨ registry fp.deviceName = false) :
    resolveFingerprint registry randomDevice host (some fp) =
      { fp with deviceName := randomDevice } := by
  have hcond : ¬(fp.deviceName ≠ "" ∧ registry fp.deviceName = true) := by
    rcases h with h | h
    · exact fun hb => hb.1 h
    · exact fun hb => by rw [h] at hb; exact Bool.false_ne_true hb.2
  unfold resolveFingerprint getDeviceConfigName
  dsimp only
  rw [if_neg hcond]

theorem C6_witness :
    (demoUnknownSaved.deviceName = "" ∨
        demoRegistry demoUnknownSaved.deviceName = false) ∧
      resolveFingerprint demoRegistry ("Desktop Chrome") demoHost
          (some demoUnknownSaved) =
        { demoUnknownSaved with deviceName := "Desktop Chrome" } :=
  ⟨Or.inr (by decide),
    C6_unrecognized_keeps_persisted_fields demoRegistry ("Desktop Chrome")
      demoHost demoUnknownSaved (Or.inr (by decide))⟩

/-! ## C7 -/

/-- C7 counterexample: the three checkpoints do not apply an identical check
over both URLs.  With a normal current URL and a challenge response URL, the
post-navigation check reports blocked while the post-submission and
post-results-wait checks — which examine only the current URL — do not. -/
theorem C7_checkpoints_not_identical_cex :
    isBlockedNav ("https://www.google.com/search?q=test")
        (some ("https://www.google.com/sorry/index")) = true ∧
      isBlockedAfterSearch ("https://www.google.com/search?q=test") = false ∧
      isBlockedDuringResults ("https://www.google.com/search?q=test") = false := by
  refine ⟨by decide, by decide, by decide⟩

/-- C7 as amended: block detection is a pure function of the URLs; the
post-navigation checkpoint is true exactly when the current URL or the
navigation-response URL contains one of the fixed challenge substrings, while
the post-submission and post-results-wait checkpoints apply the same
predicate restricted to the current URL only (no response URL is consulted
there). -/
theorem C7_block_predicate_characterization :
    (∀ cur resp, isBlockedNav cur (some resp) = true ↔
        ∃ p ∈ sorryPatterns, jsIncludes cur p = true ∨ jsIncludes resp p = true)
    ∧ (∀ cur, isBlockedNav cur none = true ↔
        ∃ p ∈ sorryPatterns, jsIncludes cur p = true)
    ∧ (∀ u, isBlockedAfterSearch u = isBlockedNav u none
        ∧ isBlockedDuringResults u = isBlockedNav u none) := by
  refine ⟨?_, ?_, ?_⟩
  · intro cur resp
    simp [isBlockedNav, List.any_eq_true]
  · intro cur
    simp [isBlockedNav, List.any_eq_true]
  · intro u
    constructor
    · simp [isBlockedAfterSearch, isBlockedNav]
    · simp [isBlockedDuringResults, isBlockedNav]

/-! ## C9 -/

/-- When `pat` occurs nowhere strictly inside `pre` (or overlapping it), the
first-occurrence replacement rewrites exactly the occurrence after `pre`. -/
theorem replaceFirstAux_append (pat rep : List Char) :
    ∀ (pre post : List Char),
      (∀ i, i < pre.length →
        pat.isPrefixOf ((pre ++ (pat ++ post)).drop i) = false) →
      replaceFirstAux pat rep (pre ++ (pat ++ post)) = pre ++ (rep ++ post) := by
  intro pre
  induction pre with
  | nil =>
    intro post _
    cases pat with
    | nil => cases post <;> simp [replaceFirstAux, List.isPrefixOf]
    | cons pc pt =>
      have hpre : (pc :: pt).isPrefixOf ((pc :: pt) ++ post) = true := by
        simp [List.isPrefixOf_iff_prefix]
      show replaceFirstAux (pc :: pt) rep (pc :: (pt ++ post)) = rep ++ post
      unfold replaceFirstAux
      rw [← List.cons_append, if_pos hpre, List.drop_left]
  | cons a pre ih =>
    intro post h
    have h0 : pat.isPrefixOf (a :: (pre ++ (pat ++ post))) = false := by
      have := h 0 (by simp)
      simpa using this
    have hneg : ¬(pat.isPrefixOf (a :: (pre ++ (pat ++ post))) = true) := by
      simp [h0]
    show replaceFirstAux pat rep (a :: (pre ++ (pat ++ post))) =
      a :: (pre ++ (rep ++ post))
    unfold replaceFirstAux
    rw [if_neg hneg]
    have hrec := ih post (fun i hi => by
      have := h (i + 1) (Nat.succ_lt_succ hi)
      simpa using this)
    rw [hrec]

/-- C9 counterexample: the side-file path substitutes the *first* `.json`
occurrence, not a trailing suffix — a path whose first `.json` sits mid-path
keeps its trailing `.json` untouched, unlike the spec's trailing rule. -/
theorem C9_first_occurrence_cex :
    fingerprintFile ("./state.json.d/browser.json") =
        "./state-fingerprint.json.d/browser.json" ∧
      fingerprintFile ("./state.json.d/browser.json") ≠
        specTrailingFingerprintFile ("./state.json.d/browser.json") := by
  refine ⟨by decide, by decide⟩

/-- C9 as amended: the fingerprint side-file path is derived by replacing the
*first* occurrence of `.json` in the state-file path with
`-fingerprint.json`; in particular, whenever `.json` occurs nowhere before
the trailing suffix, this coincides with the trailing substitution the spec
describes. -/
theorem C9_fingerprint_path_first_occurrence (p : String)
    (h : ∀ i, i < p.toList.length →
      (".json".toList.isPrefixOf ((p.toList ++ ".json".toList).drop i)) = false) :
    fingerprintFile (p ++ ".json") = p ++ "-fingerprint.json" := by
  unfold fingerprintFile jsReplaceFirst
  have hdata : (p ++ ".json").toList = p.toList ++ ".json".toList := by
    simp [String.toList]
  rw [hdata]
  have hlist : replaceFirstAux (".json".toList) ("-fingerprint.json".toList)
      (p.toList ++ ".json".toList) = p.toList ++ "-fingerprint.json".toList := by
    have hx := replaceFirstAux_append (".json".toList)
      ("-fingerprint.json".toList) p.toList [] (by simpa using h)
    simpa using hx
  rw [hlist]
  rcases p with ⟨data⟩
  rfl

theorem C9_amended_witness :
    (∀ i, i < ("./browser-state".toList).length →
      (".json".toList.isPrefixOf
        ((("./browser-state".toList) ++ ".json".toList).drop i)) = false) ∧
    fingerprintFile ("./browser-state" ++ ".json") =
      "./browser-state" ++ "-fingerprint.json" :=
  ⟨by decide,
    C9_fingerprint_path_first_occurrence "./browser-state" (by decide)⟩

/-! ## Run-model fixtures and helper lemmas -/

/-- A page with a single qualifying external anchor. -/
def demoPage : PageModel :=
  { containersBySelector := [],
    anchors := [{ isHtmlAnchor := true, href := "https://example.com/a",
                  text := "Example result",
                  parentTexts := ["This surrounding text is long enough"] }] }

/-- An attempt in which nothing goes wrong. -/
def cfgOk : AttemptCfg :=
  { navFails := false, responseUrl := none,
    currentUrlAfterNav := "https://www.google.com/",
    navVerifyTimeout := false, throwawayFails := false, inputFound := true,
    urlAfterSearch := "https://www.google.com/search?q=test",
    searchVerifyTimeout := false, resultsFound := true,
    urlDuringResults := "https://www.google.com/search?q=test",
    resultsVerifyTimeout := false, retryResultsFound := false,
    page := demoPage }

/-- An attempt whose navigation lands on the challenge interstitial. -/
def cfgBlockedNav : AttemptCfg :=
  { cfgOk with currentUrlAfterNav :=
      "https://www.google.com/sorry/index?continue=search" }

/-- An attempt in which no search-input selector matches. -/
def cfgNoInput : AttemptCfg :=
  { cfgOk with inputFound := false }

/-- An HTML-capture attempt in which no search-input selector matches. -/
def hcfgNoInput : HtmlAttemptCfg :=
  { navFails := false, responseUrl := none,
    currentUrlAfterNav := "https://www.google.com/",
    navVerifyTimeout := false, inputFound := false,
    urlAfterSearch := "", searchVerifyTimeout := false,
    finalUrl := "", originalHtml := "", cleanedHtml := "" }

theorem runFromResults_headed_no_escalate (sh : Bool) (c : AttemptCfg)
    (i m : Nat) : (runFromResults sh false c i m).out ≠ AttemptOut.escalate := by
  unfold runFromResults
  simp only [Bool.false_eq_true, if_false]
  split_ifs <;> simp

theorem runFromInput_headed_no_escalate (sh : Bool) (c : AttemptCfg)
    (i m : Nat) : (runFromInput sh false c i m).out ≠ AttemptOut.escalate := by
  unfold runFromInput
  simp only [Bool.false_eq_true, if_false]
  split_ifs <;>
    first
      | exact runFromResults_headed_no_escalate sh c i m
      | simp

/-- A headed attempt never escalates: every `escalateTrace` site is guarded
by the `headless` flag. -/
theorem runAttempt_headed_no_escalate (sh : Bool) (c : AttemptCfg)
    (i m : Nat) : (runAttempt sh false c i m).out ≠ AttemptOut.escalate := by
  unfold runAttempt
  simp only [Bool.false_eq_true, if_false]
  split_ifs <;>
    first
      | exact runFromInput_headed_no_escalate sh c i m
      | simp

theorem runHtmlFromInput_headed_no_escalate (q : String) (sv : Bool)
    (op : Option String) (dp : String) (c : HtmlAttemptCfg) :
    runHtmlFromInput q false sv op dp c ≠ HtmlOut.escalate := by
  unfold runHtmlFromInput
  simp only [Bool.false_eq_true, if_false]
  split_ifs <;> simp [htmlSuccess]

/-- A headed HTML attempt never escalates. -/
theorem runHtmlAttempt_headed_no_escalate (q : String) (sv : Bool)
    (op : Option String) (dp : String) (c : HtmlAttemptCfg) :
    runHtmlAttempt q false sv op dp c ≠ HtmlOut.escalate := by
  unfold runHtmlAttempt
  simp only [Bool.false_eq_true, if_false]
  split_ifs <;>
    first
      | exact runHtmlFromInput_headed_no_escalate q sv op dp c
      | simp

theorem escalateTrace_no_shared (sh tw : Bool) (i : Nat) :
    CloseEv.browser BrowserId.shared ∉ (escalateTrace sh tw i).events := by
  unfold escalateTrace browserOf
  split_ifs <;> simp_all

theorem catchEvents_no_shared (sh : Bool) (i : Nat) :
    CloseEv.browser BrowserId.shared ∉ catchEvents sh i := by
  unfold catchEvents browserOf
  split_ifs <;> simp_all

theorem successEvents_no_shared (sh : Bool) (i : Nat) :
    CloseEv.browser BrowserId.shared ∉ successEvents sh i := by
  unfold successEvents browserOf
  split_ifs <;> simp_all

theorem runFromResults_no_shared (sh h : Bool) (c : AttemptCfg) (i m : Nat) :
    CloseEv.browser BrowserId.shared ∉ (runFromResults sh h c i m).events := by
  unfold runFromResults
  split_ifs <;>
    first
      | exact escalateTrace_no_shared sh c.throwawayFails i
      | exact successEvents_no_shared sh i
      | exact catchEvents_no_shared sh i

theorem runFromInput_no_shared (sh h : Bool) (c : AttemptCfg) (i m : Nat) :
    CloseEv.browser BrowserId.shared ∉ (runFromInput sh h c i m).events := by
  unfold runFromInput
  split_ifs <;>
    first
      | exact escalateTrace_no_shared sh c.throwawayFails i
      | exact catchEvents_no_shared sh i
      | exact runFromResults_no_shared sh h c i m

theorem runAttempt_no_shared (sh h : Bool) (c : AttemptCfg) (i m : Nat) :
    CloseEv.browser BrowserId.shared ∉ (runAttempt sh h c i m).events := by
  unfold runAttempt
  split_ifs <;>
    first
      | exact escalateTrace_no_shared sh c.throwawayFails i
      | exact catchEvents_no_shared sh i
      | exact runFromInput_no_shared sh h c i m

/-- On every path, when the run records a caught error message, the returned
response is the synthetic single-result error response built from it. -/
theorem runSearchTop_failed_response (q : String) (m : Nat) (sh uh : Bool)
    (c₁ c₂ : AttemptCfg) (msg : String)
    (hf : (runSearchTop q m sh uh c₁ c₂).failed = some msg) :
    (runSearchTop q m sh uh c₁ c₂).response =
      { query := q, results := [syntheticErrorResult msg] } := by
  unfold runSearchTop at hf ⊢
  rcases h1 : (runAttempt sh uh c₁ 0 m).out with _ | m1 | r1
  · simp only [h1, finalize] at hf ⊢
    rcases h2 : (runAttempt sh false c₂ 1 m).out with _ | m2 | r2
    · exact absurd h2 (runAttempt_headed_no_escalate sh c₂ 1 m)
    · simp only [h2, finalize] at hf ⊢
      obtain rfl : m2 = msg := Option.some.inj hf
      rfl
    · simp only [h2, finalize] at hf
      exact Option.noConfusion hf
  · simp only [h1, finalize] at hf ⊢
    obtain rfl : m1 = msg := Option.some.inj hf
    rfl
  · simp only [h1, finalize] at hf
    exact Option.noConfusion hf

/-- On every path, when the HTML run records a caught error message, the
entry point rethrows it wrapped. -/
theorem runHtmlTop_failed_result (q : String) (sv : Bool) (op : Option String)
    (dp : String) (c₁ c₂ : HtmlAttemptCfg) (msg : String)
    (hf : (runHtmlTop q sv op dp c₁ c₂).failed = some msg) :
    (runHtmlTop q sv op dp c₁ c₂).result =
      Except.error (htmlErrorWrap msg) := by
  unfold runHtmlTop at hf ⊢
  rcases h1 : runHtmlAttempt q true sv op dp c₁ with _ | m1 | r1
  · simp only [h1] at hf ⊢
    rcases h2 : runHtmlAttempt q false sv op dp c₂ with _ | m2 | r2
    · exact absurd h2 (runHtmlAttempt_headed_no_escalate q sv op dp c₂)
    · simp only [h2] at hf ⊢
      obtain rfl : m2 = msg := Option.some.inj hf
      rfl
    · simp only [h2] at hf
      exact Option.noConfusion hf
  · simp only [h1] at hf ⊢
    obtain rfl : m1 = msg := Option.some.inj hf
    rfl
  · simp only [h1] at hf
    exact Option.noConfusion hf

theorem jsIncludes_append_right (pre msg : String) :
    jsIncludes (pre ++ msg) msg = true := by
  unfold jsIncludes
  rw [decide_eq_true_eq]
  have hd : (pre ++ msg).toList = pre.toList ++ msg.toList := by
    simp [String.toList]
  rw [hd]
  exact (List.suffix_append pre.toList msg.toList).isInfix

/-! ## C2 -/

/-- C2 evaluation at the failing input: `googleSearch` destructures
`headless = true` from the options and then uses the caller's value —
contrary to the comment at `search.ts` line 127 ("Ignore the incoming
headless parameter and always start in headless mode") and to the CLI help
text, a caller-supplied `headless: false` makes the *first* attempt run
headed (on a freshly launched, non-shared browser). -/
theorem C2_legacy_headless_flag_not_ignored :
    googleSearchInitialHeadless { headless := some false } = false ∧
      (googleSearchRun "test query" { headless := some false } false
          cfgOk cfgOk).attempts =
        [{ headless := false, browser := BrowserId.owned 0 }] := by
  exact ⟨rfl, by decide⟩

/-! ## C3 -/

/-- C3 evaluation at the failing input: a caller-supplied browser and a
challenge on the first (headless) attempt.  The retry re-enters
`performSearch(false)`, whose `existingBrowser` check (`search.ts` line 220)
reassigns the caller's browser, so the second attempt runs on the *shared*
browser again — the `headless=false` argument never reaches a launch. -/
theorem C3_shared_browser_reused_on_retry :
    (runSearchTop "test query" 10 true true cfgBlockedNav cfgOk).attempts =
      [{ headless := true, browser := BrowserId.shared },
       { headless := false, browser := BrowserId.shared }] := by
  decide

/-! ## C4 -/

/-- C4: on every execution path — success, attempt failure, and
challenge-driven escalation, with or without a caller-supplied browser — the
controller never closes the caller-supplied browser instance; every
`browser.close()` on the attempt browser is guarded by
`!browserWasProvided`, and the escalation path closes only the page, the
context and a browser the controller launched itself. -/
theorem C4_never_closes_caller_browser (q : String) (m : Nat)
    (sh uh : Bool) (c₁ c₂ : AttemptCfg) :
    CloseEv.browser BrowserId.shared ∉ (runSearchTop q m sh uh c₁ c₂).events := by
  have h₁ := runAttempt_no_shared sh uh c₁ 0 m
  have h₂ := runAttempt_no_shared sh false c₂ 1 m
  unfold runSearchTop
  rcases h1 : (runAttempt sh uh c₁ 0 m).out with _ | m1 | r1 <;>
    simp only [h1] <;>
    simp [List.mem_append, h₁, h₂]

/-! ## C8 -/

/-- C8: whenever an attempt fails with a caught error, the search entry point
returns a successful-shaped response whose results are exactly one synthetic
result embedding the error text in its snippet, while the HTML-capture entry
point instead surfaces a wrapped error to its caller. -/
theorem C8_error_conversion_asymmetry :
    (∀ (q : String) (m : Nat) (sh uh : Bool) (c₁ c₂ : AttemptCfg)
        (msg : String),
        (runSearchTop q m sh uh c₁ c₂).failed = some msg →
          (runSearchTop q m sh uh c₁ c₂).response =
              { query := q, results := [syntheticErrorResult msg] } ∧
            jsIncludes (syntheticErrorResult msg).snippet msg = true)
    ∧ (∀ (q : String) (sv : Bool) (op : Option String) (dp : String)
        (c₁ c₂ : HtmlAttemptCfg) (msg : String),
        (runHtmlTop q sv op dp c₁ c₂).failed = some msg →
          (runHtmlTop q sv op dp c₁ c₂).result =
            Except.error (htmlErrorWrap msg)) := by
  constructor
  · intro q m sh uh c₁ c₂ msg hf
    refine ⟨runSearchTop_failed_response q m sh uh c₁ c₂ msg hf, ?_⟩
    exact jsIncludes_append_right ("Could not complete the search, error message: ") msg
  · intro q sv op dp c₁ c₂ msg hf
    exact runHtmlTop_failed_result q sv op dp c₁ c₂ msg hf

theorem C8_witness :
    (runSearchTop "q" 10 false true cfgNoInput cfgNoInput).failed =
        some "Could not find search box" ∧
      ((runSearchTop "q" 10 false true cfgNoInput cfgNoInput).response =
          { query := "q",
            results := [syntheticErrorResult "Could not find search box"] } ∧
        jsIncludes (syntheticErrorResult "Could not find search box").snippet
          "Could not find search box" = true) ∧
      (runHtmlTop "q" false none "out.html" hcfgNoInput hcfgNoInput).failed =
        some "Could not find search box" ∧
      (runHtmlTop "q" false none "out.html" hcfgNoInput hcfgNoInput).result =
        Except.error (htmlErrorWrap "Could not find search box") := by
  have hf1 : (runSearchTop "q" 10 false true cfgNoInput cfgNoInput).failed =
      some "Could not find search box" := by decide
  have hf2 : (runHtmlTop "q" false none "out.html" hcfgNoInput
      hcfgNoInput).failed = some "Could not find search box" := by decide
  exact ⟨hf1,
    C8_error_conversion_asymmetry.1 "q" 10 false true cfgNoInput cfgNoInput
      "Could not find search box" hf1,
    hf2,
    C8_error_conversion_asymmetry.2 "q" false none "out.html" hcfgNoInput
      hcfgNoInput "Could not find search box" hf2⟩

/-! ## C10 -/

/-- Http-scheme invariant over the extraction state. -/
def HttpInv (st : ExtractState) : Prop :=
  ∀ r ∈ st.results, jsStartsWith r.link "http" = true

theorem httpInv_processContainer (ss : SelectorSet) (st : ExtractState)
    (c : Container) (h : HttpInv st) : HttpInv (processContainer ss st c) := by
  rcases processContainer_cases ss st c with heq | ⟨r, _, hh, heq⟩
  · rw [heq]; exact h
  · rw [heq]
    intro x hx
    rcases List.mem_append.mp hx with hx | hx
    · exact h x hx
    · rw [List.mem_singleton] at hx
      rw [hx]
      exact hh

theorem httpInv_processContainers (m : Nat) (ss : SelectorSet) :
    ∀ (cs : List Container) (st : ExtractState), HttpInv st →
      HttpInv (processContainers m ss st cs) := by
  intro cs
  induction cs with
  | nil => intro st h; exact h
  | cons c rest ih =>
    intro st h
    show HttpInv (if st.results.length ≥ m then st
      else processContainers m ss (processContainer ss st c) rest)
    split
    · exact h
    · exact ih _ (httpInv_processContainer ss st c h)

theorem httpInv_processSets (m : Nat) (p : PageModel) :
    ∀ (sets : List SelectorSet) (st : ExtractState), HttpInv st →
      HttpInv (processSets m p st sets) := by
  intro sets
  induction sets with
  | nil => intro st h; exact h
  | cons ss rest ih =>
    intro st h
    show HttpInv (if st.results.length ≥ m then st
      else processSets m p
        (processContainers m ss st (queryContainers p ss.container)) rest)
    split
    · exact h
    · exact ih _ (httpInv_processContainers m ss _ st h)

theorem httpInv_processAnchor (st : ExtractState) (a : Anchor)
    (ha : jsStartsWith a.href "http" = true) (h : HttpInv st) :
    HttpInv (processAnchor st a) := by
  rcases processAnchor_cases st a with heq | ⟨_, heq⟩
  · rw [heq]; exact h
  · rw [heq]
    intro x hx
    rcases List.mem_append.mp hx with hx | hx
    · exact h x hx
    · rw [List.mem_singleton] at hx
      rw [hx]
      exact ha

theorem httpInv_processAnchors (m : Nat) :
    ∀ (as : List Anchor) (st : ExtractState),
      (∀ a ∈ as, jsStartsWith a.href "http" = true) → HttpInv st →
      HttpInv (processAnchors m st as) := by
  intro as
  induction as with
  | nil => intro st _ h; exact h
  | cons a rest ih =>
    intro st has h
    show HttpInv (if st.results.length ≥ m then st
      else processAnchors m (processAnchor st a) rest)
    split
    · exact h
    · exact ih _ (fun x hx => has x (List.mem_cons_of_mem a hx))
        (httpInv_processAnchor st a (has a (List.mem_cons_self a rest)) h)

/-- C10: the synthetic error result returned on the search entry point's
error path has title `"Search failed"` and an empty link — violating the
documented `SearchResult` http(s)-link invariant — and this is exactly what
every failed run's response carries; by contrast, every result produced by
the extraction script has a link starting with `http`, given that the
generic pass only sees anchors matched by `a[href^='http']`. -/
theorem C10_error_result_breaks_http_invariant :
    (∀ msg, (syntheticErrorResult msg).title = "Search failed" ∧
        (syntheticErrorResult msg).link = "" ∧
        jsStartsWith (syntheticErrorResult msg).link "http" = false)
    ∧ (∀ (q : String) (m : Nat) (sh uh : Bool) (c₁ c₂ : AttemptCfg)
        (msg : String),
        (runSearchTop q m sh uh c₁ c₂).failed = some msg →
          (runSearchTop q m sh uh c₁ c₂).response.results =
            [syntheticErrorResult msg])
    ∧ (∀ (p : PageModel) (m : Nat),
        (∀ a ∈ p.anchors, jsStartsWith a.href "http" = true) →
        ∀ r ∈ extractResults p m, jsStartsWith r.link "http" = true) := by
  refine ⟨?_, ?_, ?_⟩
  · intro msg
    exact ⟨rfl, rfl, rfl⟩
  · intro q m sh uh c₁ c₂ msg hf
    rw [runSearchTop_failed_response q m sh uh c₁ c₂ msg hf]
  · intro p m hanchors r hr
    have hfin : HttpInv (extractFinalState p m) := by
      have h0 : HttpInv { results := [], seen := [] } := by
        intro x hx
        exact absurd hx (List.not_mem_nil x)
      show HttpInv (if (processSets m p { results := [], seen := [] }
          selectorSets).results.length < m then
        processAnchors m (processSets m p { results := [], seen := [] }
          selectorSets) p.anchors
        else processSets m p { results := [], seen := [] } selectorSets)
      split
      · exact httpInv_processAnchors m p.anchors _ hanchors
          (httpInv_processSets m p selectorSets _ h0)
      · exact httpInv_processSets m p selectorSets _ h0
    exact hfin r (List.take_subset m _ hr)

theorem C10_witness :
    ((syntheticErrorResult "boom").title = "Search failed" ∧
        (syntheticErrorResult "boom").link = "" ∧
        jsStartsWith (syntheticErrorResult "boom").link "http" = false) ∧
      (runSearchTop "q" 10 false true cfgNoInput cfgNoInput).failed =
          some "Could not find search box" ∧
      (runSearchTop "q" 10 false true cfgNoInput cfgNoInput).response.results =
          [syntheticErrorResult "Could not find search box"] ∧
      ((∀ a ∈ demoPage.anchors, jsStartsWith a.href "http" = true) ∧
        ∀ r ∈ extractResults demoPage 3, jsStartsWith r.link "http" = true) := by
  have hf : (runSearchTop "q" 10 false true cfgNoInput cfgNoInput).failed =
      some "Could not find search box" := by decide
  have ha : ∀ a ∈ demoPage.anchors, jsStartsWith a.href "http" = true := by
    decide
  exact ⟨C10_error_result_breaks_http_invariant.1 "boom", hf,
    C10_error_result_breaks_http_invariant.2.1 "q" 10 false true cfgNoInput
      cfgNoInput "Could not find search box" hf,
    ha, C10_error_result_breaks_http_invariant.2.2 demoPage 3 ha⟩

end GoogleSearchMcp
